import Mathlib

/-!
Verification of the Keystone ski-resort terrain / placement algorithms.

The JavaScript source is embedded shallowly: JS numbers become real
numbers, the per-class configuration objects become concrete Lean
structures and lists, and every arithmetic step mirrors the source
statement by statement.  Rendering-library calls (mesh and material
construction) carry no algorithmic content and are not modelled.
-/

namespace Keystone

/-- A 3D vector, mirroring THREE.Vector3 (components are JS numbers). -/
structure V3 where
  x : ℝ
  y : ℝ
  z : ℝ

/-- Component-wise linear interpolation, mirroring THREE.Vector3.lerpVectors:
`a + (b - a) * t` in each coordinate. -/
noncomputable def lerpV3 (a b : V3) (t : ℝ) : V3 :=
  ⟨a.x + (b.x - a.x) * t, a.y + (b.y - a.y) * t, a.z + (b.z - a.z) * t⟩

/-- A 2D map point `{x, z}`, as used by the run and lift tables. -/
structure Pt2 where
  x : ℝ
  z : ℝ

/-- Euclidean length of a vector, mirroring THREE.Vector3.length. -/
noncomputable def normV3 (v : V3) : ℝ :=
  Real.sqrt (v.x * v.x + v.y * v.y + v.z * v.z)

/-- `v.normalize()`: divide each component by the length. -/
noncomputable def normalizeV3 (v : V3) : V3 :=
  ⟨v.x / normV3 v, v.y / normV3 v, v.z / normV3 v⟩

/-- Cross product, mirroring THREE.Vector3.crossVectors. -/
noncomputable def crossV3 (a b : V3) : V3 :=
  ⟨a.y * b.z - a.z * b.y, a.z * b.x - a.x * b.z, a.x * b.y - a.y * b.x⟩

/-! ## TerrainGenerator (revision with the three named peaks, width 1600) -/

namespace Terrain5

/-- A peak landform primitive: center, height, radius. -/
structure Peak where
  px : ℝ
  pz : ℝ
  height : ℝ
  radius : ℝ

/-- A bowl depression primitive: center, depth, radius. -/
structure Bowl where
  bx : ℝ
  bz : ℝ
  depth : ℝ
  radius : ℝ

/-- `this.peaks` of the constructor: dercum, northPeak, outback. -/
def peaks : List Peak :=
  [⟨-100, 100, 280, 200⟩, ⟨100, -100, 313, 180⟩, ⟨350, -200, 290, 220⟩]

/-- `this.bowls` of the constructor: independence, bergman, erickson, north, south. -/
def bowls : List Bowl :=
  [⟨-350, -100, 80, 120⟩, ⟨-50, -280, 70, 100⟩, ⟨50, -320, 60, 90⟩,
   ⟨280, -350, 75, 110⟩, ⟨380, -280, 65, 100⟩]

/-- Contribution of one peak: Gaussian falloff
`peak.height * exp(-dist^2 / (2 * radius^2))`. -/
noncomputable def peakTerm (p : Peak) (x z : ℝ) : ℝ :=
  let dx := x - p.px
  let dz := z - p.pz
  let dist := Real.sqrt (dx * dx + dz * dz)
  p.height * Real.exp (-(dist * dist) / (2 * p.radius * p.radius))

/-- Contribution of one bowl (the amount subtracted from the height):
inside the hard cutoff `dist < radius * 1.5` it is
`depth * exp(-dist^2/(2*radius^2)) * 0.6`, outside it is `0`. -/
noncomputable def bowlTerm (b : Bowl) (x z : ℝ) : ℝ :=
  let dx := x - b.bx
  let dz := z - b.bz
  let dist := Real.sqrt (dx * dx + dz * dz)
  if dist < b.radius * 1.5 then b.depth * Real.exp (-(dist * dist) / (2 * b.radius * b.radius)) * 0.6
  else 0

/-- `ridgeLine(x, z, x1, z1, x2, z2, height, width)`: Gaussian lateral falloff
from the segment, sine longitudinal falloff, damped by 0.4. -/
noncomputable def ridgeLine (x z x1 z1 x2 z2 height width : ℝ) : ℝ :=
  let dx := x2 - x1
  let dz := z2 - z1
  let length := Real.sqrt (dx * dx + dz * dz)
  if length = 0 then 0
  else
    let t := max 0 (min 1 (((x - x1) * dx + (z - z1) * dz) / (length * length)))
    let projX := x1 + t * dx
    let projZ := z1 + t * dz
    let distToLine := Real.sqrt ((x - projX) * (x - projX) + (z - projZ) * (z - projZ))
    let falloff := Real.exp (-(distToLine * distToLine) / (2 * width * width))
    let endFalloff := Real.sin (t * Real.pi)
    height * falloff * endFalloff * 0.4

/-- `calculateRidges`: the three ridge lines between the peaks. -/
noncomputable def calculateRidges (x z : ℝ) : ℝ :=
  ridgeLine x z (-100) 100 100 (-100) 200 40
    + ridgeLine x z 100 (-100) 350 (-200) 180 35
    + ridgeLine x z (-100) 100 (-300) 0 150 30

/-- `noise(x, z)`: three sine/cosine product octaves. -/
noncomputable def noise (x z : ℝ) : ℝ :=
  Real.sin (x * 0.01 + 1.3) * Real.cos (z * 0.01 + 0.7) * 1.0
    + Real.sin (x * 0.03 + 2.1) * Real.cos (z * 0.03 + 1.4) * 0.5
    + Real.sin (x * 0.08 + 0.5) * Real.cos (z * 0.08 + 2.8) * 0.25

/-- `calculateEdgeFalloff(x, z)` with `width = 1600`, `depth = 1200`,
`margin = 100`: front-edge factor beyond `z = 500`, side-edge factor beyond
`|x| = 700`, floored at 0.1. -/
noncomputable def calculateEdgeFalloff (x z : ℝ) : ℝ :=
  let frontFactor := if z > 600 - 100 then 1 - ((z - (600 - 100)) / 100) * 0.7 else 1
  let sideFactor := if |x| > 800 - 100 then 1 - ((|x| - (800 - 100)) / 100) * 0.5 else 1
  max 0.1 (frontFactor * sideFactor)

/-- `calculateHeight(x, z)`: base elevation 0, plus peaks, plus ridges,
minus bowls, plus `noise * 15`, times edge falloff, clamped to `≥ 0`. -/
noncomputable def calculateHeight (x z : ℝ) : ℝ :=
  let h0 : ℝ := 0
  let h1 := h0 + (peaks.map (fun p => peakTerm p x z)).sum
  let h2 := h1 + calculateRidges x z
  let h3 := h2 - (bowls.map (fun b => bowlTerm b x z)).sum
  let h4 := h3 + noise x z * 15
  let h5 := h4 * calculateEdgeFalloff x z
  max 0 h5

/-- `getHeightAt(x, z)`: identical to `calculateHeight`. -/
noncomputable def getHeightAt (x z : ℝ) : ℝ :=
  calculateHeight x z

/-- `generateHeightmap`: walks the vertex array, stores
`calculateHeight(x, z)` of every vertex in the heightmap and writes the same
value into the vertex `y`. Result: (heightmap, updated positions). -/
noncomputable def generateHeightmap (positions : List V3) : List ℝ × List V3 :=
  (positions.map fun p => calculateHeight p.x p.z,
   positions.map fun p => ⟨p.x, calculateHeight p.x p.z, p.z⟩)

end Terrain5

/-! ## TerrainGenerator (trail-map revision, width 2000, seven peaks) -/

namespace Terrain4

/-- The seven peaks of the trail-map revision. -/
def peaks : List Terrain5.Peak :=
  [⟨-50, 50, 280, 180⟩, ⟨-150, 150, 240, 120⟩, ⟨80, -150, 350, 160⟩,
   ⟨0, -80, 300, 140⟩, ⟨350, -280, 320, 200⟩, ⟨250, -180, 280, 150⟩,
   ⟨-400, -100, 260, 180⟩]

/-- The five bowls of the trail-map revision. -/
def bowls : List Terrain5.Bowl :=
  [⟨-380, -50, 100, 140⟩, ⟨-20, -350, 90, 120⟩, ⟨80, -380, 80, 110⟩,
   ⟨300, -400, 95, 130⟩, ⟨420, -350, 85, 120⟩]

/-- Peak contribution with the sharper falloff `exp(-dist^2/(1.8 r^2))`. -/
noncomputable def peakTerm (p : Terrain5.Peak) (x z : ℝ) : ℝ :=
  let dx := x - p.px
  let dz := z - p.pz
  let dist := Real.sqrt (dx * dx + dz * dz)
  p.height * Real.exp (-(dist * dist) / (1.8 * p.radius * p.radius))

/-- Bowl contribution with cutoff `dist < radius * 1.8` and damping 0.7. -/
noncomputable def bowlTerm (b : Terrain5.Bowl) (x z : ℝ) : ℝ :=
  let dx := x - b.bx
  let dz := z - b.bz
  let dist := Real.sqrt (dx * dx + dz * dz)
  if dist < b.radius * 1.8 then b.depth * Real.exp (-(dist * dist) / (2 * b.radius * b.radius)) * 0.7
  else 0

/-- `ridgeLine` of the trail-map revision (damping 0.35). -/
noncomputable def ridgeLine (x z x1 z1 x2 z2 height width : ℝ) : ℝ :=
  let dx := x2 - x1
  let dz := z2 - z1
  let length := Real.sqrt (dx * dx + dz * dz)
  if length = 0 then 0
  else
    let t := max 0 (min 1 (((x - x1) * dx + (z - z1) * dz) / (length * length)))
    let projX := x1 + t * dx
    let projZ := z1 + t * dz
    let distToLine := Real.sqrt ((x - projX) * (x - projX) + (z - projZ) * (z - projZ))
    let falloff := Real.exp (-(distToLine * distToLine) / (2 * width * width))
    let endFalloff := Real.sin (t * Real.pi)
    height * falloff * endFalloff * 0.35

/-- `calculateRidges`: the five ridge lines. -/
noncomputable def calculateRidges (x z : ℝ) : ℝ :=
  ridgeLine x z (-50) 50 80 (-150) 280 60
    + ridgeLine x z 80 (-150) 350 (-280) 260 50
    + ridgeLine x z (-150) 150 (-400) (-100) 220 55
    + ridgeLine x z 0 (-80) 250 (-180) 240 45
    + ridgeLine x z (-20) (-350) 80 (-380) 180 40

/-- `detailedNoise(x, z)`: four octaves. -/
noncomputable def detailedNoise (x z : ℝ) : ℝ :=
  Real.sin (x * 0.008 + 1.3) * Real.cos (z * 0.008 + 0.7) * 12
    + Real.sin (x * 0.02 + 2.1) * Real.cos (z * 0.02 + 1.4) * 6
    + Real.sin (x * 0.05 + 0.5) * Real.cos (z * 0.05 + 2.8) * 3
    + Real.sin (x * 0.12 + 3.2) * Real.cos (z * 0.12 + 0.3) * 1.5

/-- `calculateEdgeFalloff` with `width = 2000`, `depth = 1600`, `margin = 150`,
floored at 0.05. -/
noncomputable def calculateEdgeFalloff (x z : ℝ) : ℝ :=
  let backFactor := if z < -800 + 150 * 2 then 1 + ((z - (-800 + 150 * 2)) / (150 * 2)) * 0.3 else 1
  let sideFactor := if |x| > 1000 - 150 then 1 - ((|x| - (1000 - 150)) / 150) * 0.6 else 1
  max 0.05 (backFactor * sideFactor)

/-- `calculateHeight(x, z)` of the trail-map revision: peaks, ridges, bowls,
detailed noise, edge falloff, base-area flattening beyond `z = 600`, clamped
to `≥ 0`. -/
noncomputable def calculateHeight (x z : ℝ) : ℝ :=
  let h0 : ℝ := 0
  let h1 := h0 + (peaks.map (fun p => peakTerm p x z)).sum
  let h2 := h1 + calculateRidges x z
  let h3 := h2 - (bowls.map (fun b => bowlTerm b x z)).sum
  let h4 := h3 + detailedNoise x z
  let h5 := h4 * calculateEdgeFalloff x z
  let h6 := if z > 600 then h5 * (1 - min 1 ((z - 600) / 150)) + 10 * min 1 ((z - 600) / 150) else h5
  max 0 h6

/-- `getHeightAt(x, z)`: identical to `calculateHeight`. -/
noncomputable def getHeightAt (x z : ℝ) : ℝ :=
  calculateHeight x z

end Terrain4

/-! ## LiftRenderer: towers, cabins, and the per-frame cabin update -/

namespace LiftRenderer

/-- Static lift configuration, mirroring one entry of `LIFTS`. -/
structure LiftConfig where
  name : String
  liftType : String
  capacity : ℕ
  base : Pt2
  summit : Pt2
  midStation : Option Pt2
  towerCount : ℕ

/-- One placed tower: the mesh is positioned at
`(pos.x, terrainHeight + towerHeight / 2, pos.z)` and scaled to `towerHeight`. -/
structure Tower where
  posX : ℝ
  posY : ℝ
  posZ : ℝ
  towerHeight : ℝ

/-- `createTowers(lift, basePos, summitPos)`: the loop
`for (let i = 1; i < towerCount - 1; i++)` places one tower per interior
index `i`, at the lerp of base and summit at `t = i / (towerCount - 1)`,
with height `max(15, cableHeight - terrainHeight + 5)`. -/
noncomputable def createTowers (hf : ℝ → ℝ → ℝ) (towerCount : ℕ)
    (basePos summitPos : V3) : List Tower :=
  (List.range' 1 (towerCount - 2)).map fun (i : ℕ) =>
    let t : ℝ := (i : ℝ) / ((towerCount : ℝ) - 1)
    let pos := lerpV3 basePos summitPos t
    let terrainHeight := hf pos.x pos.z
    let cableHeight := basePos.y + (summitPos.y - basePos.y) * t
    let towerHeight := max 15 (cableHeight - terrainHeight + 5)
    ⟨pos.x, terrainHeight + towerHeight / 2, pos.z, towerHeight⟩

/-- Animated cabin state, mirroring the objects pushed onto `this.cabins`. -/
structure Cabin where
  basePos : V3
  summitPos : V3
  progress : ℝ
  speed : ℝ
  direction : ℝ

/-- The parts of `createLift(lift)` that carry algorithmic content: the
terrain-lifted base/summit/path positions, the tower list, and the seeded
cabins (`progress = i / cabinCount`, random speed in `[0.015, 0.02)`,
alternating direction).  `speedDraws i` stands for the `Math.random()` call
made while seeding cabin `i`. -/
structure LiftResult where
  basePos : V3
  summitPos : V3
  pathPoints : List V3
  towers : List Tower
  cabins : List Cabin

/-- See `LiftResult`. -/
noncomputable def createLift (hf : ℝ → ℝ → ℝ) (lift : LiftConfig)
    (speedDraws : ℕ → ℝ) : LiftResult :=
  let basePos : V3 := ⟨lift.base.x, hf lift.base.x lift.base.z + 2, lift.base.z⟩
  let summitPos : V3 := ⟨lift.summit.x, hf lift.summit.x lift.summit.z + 2, lift.summit.z⟩
  let pathPoints :=
    match lift.midStation with
    | some m => [basePos, ⟨m.x, hf m.x m.z + 2, m.z⟩, summitPos]
    | none => [basePos, summitPos]
  let towers := createTowers hf lift.towerCount basePos summitPos
  let cabinCount : ℕ := if lift.liftType = "gondola" then 8 else 12
  let cabins := (List.range cabinCount).map fun (i : ℕ) =>
    ({ basePos := basePos
       summitPos := summitPos
       progress := (i : ℝ) / (cabinCount : ℝ)
       speed := 0.015 + speedDraws i * 0.005
       direction := if i % 2 = 0 then 1 else -1 } : Cabin)
  ⟨basePos, summitPos, pathPoints, towers, cabins⟩

/-- Per-cabin mutable state touched by `updateCabins`. -/
structure CabinState where
  progress : ℝ
  direction : ℝ

/-- One `updateCabins` step for one cabin with frame delta `delta`:
`progress += speed * direction * delta * 10`, then bounce:
clamp at 1 flipping to −1, clamp at 0 flipping to +1. -/
noncomputable def tickCabin (speed : ℝ) (st : CabinState) (delta : ℝ) : CabinState :=
  if st.progress + speed * st.direction * delta * 10 ≥ 1 then ⟨1, -1⟩
  else if st.progress + speed * st.direction * delta * 10 ≤ 0 then ⟨0, 1⟩
  else ⟨st.progress + speed * st.direction * delta * 10, st.direction⟩

/-- The cabin state after the first `k` frame deltas have been applied. -/
noncomputable def cabinAfter (speed : ℝ) (st : CabinState) (deltas : List ℝ) (k : ℕ) :
    CabinState :=
  (deltas.take k).foldl (tickCabin speed) st

/-- The invariant maintained by the cabin state machine. -/
def CabinInv (st : CabinState) : Prop :=
  0 ≤ st.progress ∧ st.progress ≤ 1 ∧ (st.direction = 1 ∨ st.direction = -1)

/-- The transition properties of a single tick from `st` to `st2`:
the direction flips only when the new progress is clamped at a boundary,
a boundary forces the matching direction, and progress moves monotonically
in the direction of travel (no teleporting back to the start). -/
def CabinStep (st st2 : CabinState) : Prop :=
  (st2.direction ≠ st.direction → st2.progress = 0 ∨ st2.progress = 1) ∧
  (st2.progress = 1 → st2.direction = -1) ∧
  (st2.progress = 0 → st2.direction = 1) ∧
  (st.direction = 1 → st.progress ≤ st2.progress) ∧
  (st.direction = -1 → st2.progress ≤ st.progress)

end LiftRenderer

/-! ## RunRenderer: difficulty widths and the terrain-conforming ribbon -/

namespace RunRenderer

/-- Static run configuration, mirroring one entry of `RUNS`. -/
structure Run where
  name : String
  difficulty : String
  points : List Pt2

/-- `getRunWidth(difficulty)` of the ribbon revision: wide beginner runs,
narrower expert runs, default 14. -/
noncomputable def getRunWidth (difficulty : String) : ℝ :=
  if difficulty = "green" then 20
  else if difficulty = "blue" then 16
  else if difficulty = "black" then 12
  else if difficulty = "double" then 10
  else 14

/-- The buffer-geometry data produced by `createRibbonGeometry`:
the vertex list (left edge then right edge per sample), uv pairs, and the
two triangles per quad. -/
structure RibbonGeometry where
  vertices : List V3
  uvs : List (ℝ × ℝ)
  indices : List (ℕ × ℕ × ℕ)

/-- One loop iteration of `createRibbonGeometry`: at sample `i` of
`segments`, the curve point `p = curve.getPoints(segments)[i]` (parameter
`i / segments`), the tangent `curve.getTangentAt(i / (points.length - 1))`
(the same parameter), the horizontal perpendicular
`normalize(tangent × up)`, and the two edge vertices offset by
`± width / 2` whose `y` re-queries the height field at the offset point,
plus the 0.5 clearance. -/
noncomputable def ribbonVertexPair (hf : ℝ → ℝ → ℝ) (curvePoint curveTangentAt : ℝ → V3)
    (width : ℝ) (segments : ℕ) (i : ℕ) : V3 × V3 :=
  let t : ℝ := (i : ℝ) / (segments : ℝ)
  let p := curvePoint t
  let tangent := curveTangentAt t
  let up : V3 := ⟨0, 1, 0⟩
  let perp := normalizeV3 (crossV3 tangent up)
  let halfWidth := width / 2
  (⟨p.x - perp.x * halfWidth,
    hf (p.x - perp.x * halfWidth) (p.z - perp.z * halfWidth) + 0.5,
    p.z - perp.z * halfWidth⟩,
   ⟨p.x + perp.x * halfWidth,
    hf (p.x + perp.x * halfWidth) (p.z + perp.z * halfWidth) + 0.5,
    p.z + perp.z * halfWidth⟩)

/-- `createRibbonGeometry(curve, width, segments)`: push left and right edge
vertices for each of the `segments + 1` samples, uv rows, and a quad (two
triangles) per step.  The curve object is abstracted by its two query
functions `curvePoint` (`getPoints` sampling) and `curveTangentAt`. -/
noncomputable def createRibbonGeometry (hf : ℝ → ℝ → ℝ)
    (curvePoint curveTangentAt : ℝ → V3) (width : ℝ) (segments : ℕ) : RibbonGeometry :=
  { vertices := (List.range (segments + 1)).flatMap fun (i : ℕ) =>
      [(ribbonVertexPair hf curvePoint curveTangentAt width segments i).1,
       (ribbonVertexPair hf curvePoint curveTangentAt width segments i).2]
    uvs := (List.range (segments + 1)).flatMap fun (i : ℕ) =>
      [((0 : ℝ), (i : ℝ) / (segments : ℝ)), ((1 : ℝ), (i : ℝ) / (segments : ℝ))]
    indices := (List.range segments).flatMap fun (i : ℕ) =>
      [(2 * i, 2 * i + 2, 2 * i + 1), (2 * i + 1, 2 * i + 2, 2 * i + 3)] }

/-- The algorithmic content of the produced run mesh. -/
structure RunMesh where
  points3D : List V3
  width : ℝ
  geometry : RibbonGeometry

/-- `createRunMesh(run)`: `null` for fewer than 2 control points; otherwise
lift the control points by the terrain height plus 0.3, build the
Catmull-Rom curve through them (abstracted by the two constructor-style
parameters `curvePoint`/`curveTangentAt` taking the lifted points), and
build the ribbon with the difficulty width and 50 segments. -/
noncomputable def createRunMesh (hf : ℝ → ℝ → ℝ)
    (curvePoint curveTangentAt : List V3 → ℝ → V3) (run : Run) : Option RunMesh :=
  if run.points.length < 2 then none
  else
    let points3D := run.points.map fun p => (⟨p.x, hf p.x p.z + 0.3, p.z⟩ : V3)
    let width := getRunWidth run.difficulty
    some ⟨points3D, width,
      createRibbonGeometry hf (curvePoint points3D) (curveTangentAt points3D) width 50⟩

/-- `generate()`: build one mesh per run, silently skipping every run for
which `createRunMesh` returned `null` (the `if (mesh)` guard). -/
noncomputable def generate (hf : ℝ → ℝ → ℝ)
    (curvePoint curveTangentAt : List V3 → ℝ → V3) (runs : List Run) : List RunMesh :=
  runs.filterMap (createRunMesh hf curvePoint curveTangentAt)

end RunRenderer

/-- `getRunWidth` of the earlier tube-geometry revision of RunRenderer. -/
noncomputable def RunRendererTube.getRunWidth (difficulty : String) : ℝ :=
  if difficulty = "green" then 4
  else if difficulty = "blue" then 3.5
  else if difficulty = "black" then 3
  else if difficulty = "double" then 2.5
  else 3

/-! ## TreeGenerator: grid scatter with corridor exclusion -/

namespace TreeGenerator

/-- An exclusion corridor: an axis-aligned box given by center and size. -/
structure Corridor where
  cx : ℝ
  cz : ℝ
  width : ℝ
  depth : ℝ

/-- `getRunCorridors()`: the static corridor table of the dense-forest
revision (tree line 260). -/
def getRunCorridors : List Corridor :=
  [⟨-80, 300, 150, 500⟩, ⟨-180, 300, 80, 400⟩, ⟨0, 350, 100, 350⟩,
   ⟨70, -50, 100, 250⟩, ⟨120, 0, 80, 200⟩,
   ⟨320, -150, 120, 300⟩, ⟨280, -100, 80, 200⟩,
   ⟨-380, -50, 180, 180⟩, ⟨-20, -350, 150, 120⟩, ⟨80, -380, 130, 100⟩,
   ⟨320, -380, 180, 150⟩,
   ⟨-100, 650, 400, 200⟩]

/-- The box-containment test for one corridor (the body of the loop in
`isInRunCorridor`). -/
noncomputable def inCorridorB (x z : ℝ) (c : Corridor) : Bool :=
  decide (c.cx - c.width / 2 < x ∧ x < c.cx + c.width / 2 ∧
          c.cz - c.depth / 2 < z ∧ z < c.cz + c.depth / 2)

/-- `isInRunCorridor(x, z, corridors)`: true when some corridor contains the
point. -/
noncomputable def isInRunCorridor (x z : ℝ) (corridors : List Corridor) : Bool :=
  corridors.any (inCorridorB x z)

/-- `estimateSlope(x, z)`: finite differences with `delta = 4`. -/
noncomputable def estimateSlope (hf : ℝ → ℝ → ℝ) (x z : ℝ) : ℝ :=
  let h0 := hf x z
  let h1 := hf (x + 4) z
  let h2 := hf x (z + 4)
  let dx := (h1 - h0) / 4
  let dz := (h2 - h0) / 4
  Real.sqrt (dx * dx + dz * dz)

/-- The per-candidate body of `generateTreePositions` (tree line 260,
minimum elevation 15): reject when out of the elevation band, inside a
corridor, on slope above 0.7, on slope above 0.4 with coin `r1 < 0.5`, or
near the tree line with coin `r2 < 0.4`; otherwise emit the position with
the evaluated height. -/
noncomputable def treeCandidate (hf : ℝ → ℝ → ℝ) (corridors : List Corridor)
    (jx jz r1 r2 : ℝ) : Option V3 :=
  let height := hf jx jz
  if height > 260 ∨ height < 15 then none
  else if isInRunCorridor jx jz corridors then none
  else
    let slope := estimateSlope hf jx jz
    if slope > 0.7 then none
    else if slope > 0.4 ∧ r1 < 0.5 then none
    else if height > 260 - 40 ∧ r2 < 0.4 then none
    else some ⟨jx, height, jz⟩

/-- `generateTreePositions()`: grid loops at base spacing 18 over the
terrain extent (`nx`/`nz` are the iteration counts the two `for` loops
perform for the given width/depth), 1-2 candidates per cell, jitter 8.
Every `Math.random()` draw is abstracted by an oracle indexed by its call
site: `cellRnd xi zi` is the tree-count draw of cell `(xi, zi)` and
`treeRnd xi zi t k` is the `k`-th draw (jx jitter, jz jitter, slope coin,
tree-line coin) for candidate `t` of that cell. -/
noncomputable def generateTreePositions (hf : ℝ → ℝ → ℝ) (width depth : ℝ) (nx nz : ℕ)
    (cellRnd : ℕ → ℕ → ℝ) (treeRnd : ℕ → ℕ → ℕ → ℕ → ℝ) : List V3 :=
  (List.range nx).flatMap fun (xi : ℕ) =>
    (List.range nz).flatMap fun (zi : ℕ) =>
      let x := -(width / 2) + 18 + 18 * (xi : ℝ)
      let z := -(depth / 2) + 18 + 18 * (zi : ℝ)
      let treesInCell := 1 + (⌊cellRnd xi zi * 2⌋).toNat
      (List.range treesInCell).flatMap fun (t : ℕ) =>
        let jx := x + (treeRnd xi zi t 0 - 0.5) * 8 * 2
        let jz := z + (treeRnd xi zi t 1 - 0.5) * 8 * 2
        (treeCandidate hf getRunCorridors jx jz (treeRnd xi zi t 2) (treeRnd xi zi t 3)).toList

end TreeGenerator

/-! ## The height field along the line x = -350 (for the bowl-cutoff analysis) -/

/-- The bowl-free part of `Terrain5.calculateHeight` along the line
`x = -350`: peaks plus ridges plus `noise * 15`.  On this line, for
`z ≤ 500`, the edge falloff factor is 1 and every bowl other than the
independence bowl is outside its cutoff radius. -/
noncomputable def sliceSmooth (z : ℝ) : ℝ :=
  (Terrain5.peaks.map (fun p => Terrain5.peakTerm p (-350) z)).sum
    + Terrain5.calculateRidges (-350) z + Terrain5.noise (-350) z * 15

/-- The continuous function that agrees with `calculateHeight (-350) z`
for `z` just inside the independence-bowl cutoff circle (`79 < z < 80`):
the smooth part minus the un-truncated independence-bowl Gaussian. -/
noncomputable def sliceInside (z : ℝ) : ℝ :=
  max 0 (sliceSmooth z - 80 * Real.exp (-((z + 100) * (z + 100)) / (2 * 120 * 120)) * 0.6)

/-! ## Helper lemmas -/

namespace LiftRenderer
lemma tickCabin_inv (speed delta : ℝ) (st : CabinState) (h : CabinInv st) :
    CabinInv (tickCabin speed st delta) := by
  obtain ⟨h0, h1, hd⟩ := h
  simp only [tickCabin, CabinInv]
  split_ifs with hb1 hb2
  · exact ⟨zero_le_one, le_refl 1, Or.inr rfl⟩
  · exact ⟨le_refl 0, zero_le_one, Or.inl rfl⟩
  · exact ⟨le_of_lt (lt_of_not_le hb2), le_of_lt (lt_of_not_le hb1), hd⟩

lemma foldl_tickCabin_inv (speed : ℝ) (l : List ℝ) (st : CabinState) (h : CabinInv st) :
    CabinInv (l.foldl (tickCabin speed) st) := by
  induction l generalizing st with
  | nil => exact h
  | cons d l ih => exact ih _ (tickCabin_inv speed d st h)

lemma tickCabin_cabinStep (speed delta : ℝ) (st : CabinState) (h : CabinInv st)
    (hs : 0 ≤ speed) (hd : 0 ≤ delta) :
    CabinStep st (tickCabin speed st delta) := by
  obtain ⟨h0, h1, _⟩ := h
  have hsd : 0 ≤ speed * delta := mul_nonneg hs hd
  simp only [tickCabin]
  split_ifs with hb1 hb2
  · unfold CabinStep
    dsimp only
    refine ⟨fun _ => Or.inr rfl, fun _ => rfl, fun habs => absurd habs one_ne_zero, ?_, ?_⟩
    · intro _; exact h1
    · intro hdir
      rw [hdir] at hb1
      show (1 : ℝ) ≤ st.progress
      nlinarith
  · unfold CabinStep
    dsimp only
    refine ⟨fun _ => Or.inl rfl, fun habs => absurd habs.symm one_ne_zero,
      fun _ => rfl, ?_, ?_⟩
    · intro hdir
      rw [hdir] at hb2
      show st.progress ≤ (0 : ℝ)
      nlinarith
    · intro _; exact h0
  · unfold CabinStep
    dsimp only
    refine ⟨fun hne => absurd rfl hne, ?_, ?_, ?_, ?_⟩
    · intro heq; exact absurd heq.ge (not_le.mpr (lt_of_not_le hb1))
    · intro heq; exact absurd heq.le (not_le.mpr (lt_of_not_le hb2))
    · intro hdir
      show st.progress ≤ st.progress + speed * st.direction * delta * 10
      rw [hdir]
      nlinarith
    · intro hdir
      show st.progress + speed * st.direction * delta * 10 ≤ st.progress
      rw [hdir]
      nlinarith

end LiftRenderer

namespace TreeGenerator
lemma treeCandidate_some (hf : ℝ → ℝ → ℝ) (corridors : List Corridor)
    (jx jz r1 r2 : ℝ) (p : V3)
    (h : treeCandidate hf corridors jx jz r1 r2 = some p) :
    isInRunCorridor jx jz corridors = false ∧ p.x = jx ∧ p.z = jz := by
  simp only [treeCandidate] at h
  split_ifs at h with h1 h2 h3 h4 h5
  have hpq := Option.some.inj h
  subst hpq
  simp only [Bool.not_eq_true] at h2
  exact ⟨h2, rfl, rfl⟩

end TreeGenerator

lemma ribbon_row_aux (hf : ℝ → ℝ → ℝ) (hhf : ∀ x z, hf x z = 5)
    (curvePoint curveTangentAt : ℝ → V3) (segments i : ℕ)
    (hy : (curveTangentAt ((i : ℝ) / (segments : ℝ))).y = 0)
    (hnz : ¬((curveTangentAt ((i : ℝ) / (segments : ℝ))).x = 0 ∧
             (curveTangentAt ((i : ℝ) / (segments : ℝ))).z = 0)) :
    normV3 ⟨(RunRenderer.ribbonVertexPair hf curvePoint curveTangentAt 10 segments i).2.x
              - (RunRenderer.ribbonVertexPair hf curvePoint curveTangentAt 10 segments i).1.x,
            (RunRenderer.ribbonVertexPair hf curvePoint curveTangentAt 10 segments i).2.y
              - (RunRenderer.ribbonVertexPair hf curvePoint curveTangentAt 10 segments i).1.y,
            (RunRenderer.ribbonVertexPair hf curvePoint curveTangentAt 10 segments i).2.z
              - (RunRenderer.ribbonVertexPair hf curvePoint curveTangentAt 10 segments i).1.z⟩
        = 10 ∧
    ((RunRenderer.ribbonVertexPair hf curvePoint curveTangentAt 10 segments i).2.x
        - (RunRenderer.ribbonVertexPair hf curvePoint curveTangentAt 10 segments i).1.x)
      * (curveTangentAt ((i : ℝ) / (segments : ℝ))).x
    + ((RunRenderer.ribbonVertexPair hf curvePoint curveTangentAt 10 segments i).2.y
        - (RunRenderer.ribbonVertexPair hf curvePoint curveTangentAt 10 segments i).1.y)
      * (curveTangentAt ((i : ℝ) / (segments : ℝ))).y
    + ((RunRenderer.ribbonVertexPair hf curvePoint curveTangentAt 10 segments i).2.z
        - (RunRenderer.ribbonVertexPair hf curvePoint curveTangentAt 10 segments i).1.z)
      * (curveTangentAt ((i : ℝ) / (segments : ℝ))).z = 0 := by
  set T := curveTangentAt ((i : ℝ) / (segments : ℝ)) with hT
  have hS : 0 < T.x * T.x + T.z * T.z := by
    rcases not_and_or.mp hnz with h | h
    · have h1 : 0 < T.x * T.x := mul_self_pos.mpr h
      nlinarith [mul_self_nonneg T.z]
    · have h1 : 0 < T.z * T.z := mul_self_pos.mpr h
      nlinarith [mul_self_nonneg T.x]
  have hcross : crossV3 T ⟨0, 1, 0⟩ = ⟨-T.z, 0, T.x⟩ := by
    simp [crossV3]
  have hargS : (-T.z) * (-T.z) + 0 * 0 + T.x * T.x = T.x * T.x + T.z * T.z := by ring
  have hn2 : normV3 ⟨-T.z, 0, T.x⟩ * normV3 ⟨-T.z, 0, T.x⟩ = T.x * T.x + T.z * T.z := by
    rw [normV3]
    dsimp only
    rw [Real.mul_self_sqrt (by nlinarith)]
    exact hargS
  have hnpos : 0 < normV3 ⟨-T.z, 0, T.x⟩ := by
    rw [normV3]
    dsimp only
    apply Real.sqrt_pos.mpr
    rw [hargS]
    exact hS
  have hne : normV3 ⟨-T.z, 0, T.x⟩ ≠ 0 := ne_of_gt hnpos
  simp only [RunRenderer.ribbonVertexPair, ← hT, hcross, normalizeV3]
  rw [hhf, hhf]
  constructor
  · have harg :
        (curvePoint ((i : ℝ) / (segments : ℝ))).x + -T.z / normV3 ⟨-T.z, 0, T.x⟩ * (10 / 2)
          - ((curvePoint ((i : ℝ) / (segments : ℝ))).x
              - -T.z / normV3 ⟨-T.z, 0, T.x⟩ * (10 / 2)) = 10 * -T.z / normV3 ⟨-T.z, 0, T.x⟩ := by
      ring
    have harg2 :
        (curvePoint ((i : ℝ) / (segments : ℝ))).z + T.x / normV3 ⟨-T.z, 0, T.x⟩ * (10 / 2)
          - ((curvePoint ((i : ℝ) / (segments : ℝ))).z
              - T.x / normV3 ⟨-T.z, 0, T.x⟩ * (10 / 2)) = 10 * T.x / normV3 ⟨-T.z, 0, T.x⟩ := by
      ring
    rw [normV3]
    dsimp only
    have hinner :
        (10 * -T.z / normV3 ⟨-T.z, 0, T.x⟩) * (10 * -T.z / normV3 ⟨-T.z, 0, T.x⟩)
          + ((5 : ℝ) + 0.5 - (5 + 0.5)) * (5 + 0.5 - (5 + 0.5))
          + (10 * T.x / normV3 ⟨-T.z, 0, T.x⟩) * (10 * T.x / normV3 ⟨-T.z, 0, T.x⟩) = 100 := by
      field_simp
      nlinarith [hn2]
    rw [harg, harg2]
    rw [hinner]
    rw [show (100 : ℝ) = 10 ^ 2 by norm_num]
    exact Real.sqrt_sq (by norm_num)
  · rw [hy]
    field_simp
    ring

lemma peakTerm_eval (px pz height radius x z : ℝ) :
    Terrain5.peakTerm ⟨px, pz, height, radius⟩ x z
      = height * Real.exp (-((x - px) * (x - px) + (z - pz) * (z - pz))
          / (2 * radius * radius)) := by
  simp only [Terrain5.peakTerm]
  rw [Real.mul_self_sqrt (add_nonneg (mul_self_nonneg _) (mul_self_nonneg _))]

lemma bowlTerm_eval (bx bz depth radius x z d : ℝ) (hd : 0 ≤ d)
    (hdd : (x - bx) * (x - bx) + (z - bz) * (z - bz) = d ^ 2)
    (hlt : d < radius * 1.5) :
    Terrain5.bowlTerm ⟨bx, bz, depth, radius⟩ x z
      = depth * Real.exp (-(d * d) / (2 * radius * radius)) * 0.6 := by
  simp only [Terrain5.bowlTerm]
  rw [hdd, Real.sqrt_sq hd, if_pos hlt]

lemma bowlTerm_zero_of_far (bx bz depth radius x z : ℝ) (hb : 0 ≤ radius)
    (h : radius * 1.5 * (radius * 1.5)
      ≤ (x - bx) * (x - bx) + (z - bz) * (z - bz)) :
    Terrain5.bowlTerm ⟨bx, bz, depth, radius⟩ x z = 0 := by
  simp only [Terrain5.bowlTerm]
  rw [if_neg (not_lt.mpr ((Real.le_sqrt (by positivity)
    (add_nonneg (mul_self_nonneg _) (mul_self_nonneg _))).mpr (by nlinarith)))]

lemma ridgeLine_nonneg (x z x1 z1 x2 z2 h w : ℝ) (hh : 0 ≤ h) :
    0 ≤ Terrain5.ridgeLine x z x1 z1 x2 z2 h w := by
  simp only [Terrain5.ridgeLine]
  split_ifs with hL
  · exact le_refl 0
  · refine mul_nonneg (mul_nonneg (mul_nonneg hh (Real.exp_pos _).le) ?_) (by norm_num)
    refine Real.sin_nonneg_of_nonneg_of_le_pi ?_ ?_
    · exact mul_nonneg (le_max_left _ _) Real.pi_pos.le
    · have h1 : max 0 (min 1 (((x - x1) * (x2 - x1) + (z - z1) * (z2 - z1))
          / (Real.sqrt ((x2 - x1) * (x2 - x1) + (z2 - z1) * (z2 - z1))
            * Real.sqrt ((x2 - x1) * (x2 - x1) + (z2 - z1) * (z2 - z1))))) ≤ 1 :=
        max_le zero_le_one (min_le_left _ _)
      nlinarith [Real.pi_pos]

lemma sin_mul_cos_lb (a b : ℝ) : -1 ≤ Real.sin a * Real.cos b := by
  nlinarith [Real.neg_one_le_sin a, Real.sin_le_one a, Real.neg_one_le_cos b,
    Real.cos_le_one b]

lemma noise_lb (x z : ℝ) : -(1.75 : ℝ) ≤ Terrain5.noise x z := by
  have n1 := sin_mul_cos_lb (x * 0.01 + 1.3) (z * 0.01 + 0.7)
  have n2 := sin_mul_cos_lb (x * 0.03 + 2.1) (z * 0.03 + 1.4)
  have n3 := sin_mul_cos_lb (x * 0.08 + 0.5) (z * 0.08 + 2.8)
  simp only [Terrain5.noise]
  nlinarith

lemma edgeFalloff_eq_one (x z : ℝ) (hx : |x| ≤ 800 - 100) (hz : z ≤ 600 - 100) :
    Terrain5.calculateEdgeFalloff x z = 1 := by
  simp only [Terrain5.calculateEdgeFalloff]
  rw [if_neg (not_lt.mpr hz), if_neg (not_lt.mpr hx), mul_one]
  exact max_eq_right (by norm_num)

lemma bowls_slice_eq (z : ℝ) (h79 : 79 < z) (h80 : z < 80) :
    (Terrain5.bowls.map (fun b => Terrain5.bowlTerm b (-350) z)).sum
      = 80 * Real.exp (-((z + 100) * (z + 100)) / (2 * 120 * 120)) * 0.6 := by
  simp only [Terrain5.bowls, List.map_cons, List.map_nil, List.sum_cons, List.sum_nil]
  rw [bowlTerm_eval (-350) (-100) 80 120 (-350) z (z + 100) (by linarith) (by ring)
      (by nlinarith)]
  rw [bowlTerm_zero_of_far (-50) (-280) 70 100 (-350) z (by norm_num)
      (by nlinarith [sq_nonneg (z + 280)])]
  rw [bowlTerm_zero_of_far 50 (-320) 60 90 (-350) z (by norm_num)
      (by nlinarith [sq_nonneg (z + 320)])]
  rw [bowlTerm_zero_of_far 280 (-350) 75 110 (-350) z (by norm_num)
      (by nlinarith [sq_nonneg (z + 350)])]
  rw [bowlTerm_zero_of_far 380 (-280) 65 100 (-350) z (by norm_num)
      (by nlinarith [sq_nonneg (z + 280)])]
  ring

lemma calcHeight_slice_inside (z : ℝ) (h79 : 79 < z) (h80 : z < 80) :
    Terrain5.calculateHeight (-350) z = sliceInside z := by
  simp only [Terrain5.calculateHeight, sliceInside, sliceSmooth]
  rw [bowls_slice_eq z h79 h80]
  rw [edgeFalloff_eq_one (-350) z (by norm_num) (by linarith)]
  rw [mul_one]
  congr 1
  ring

lemma calcHeight_slice_at80 :
    Terrain5.calculateHeight (-350) 80 = max 0 (sliceSmooth 80) := by
  simp only [Terrain5.calculateHeight, sliceSmooth]
  have hbowls : (Terrain5.bowls.map (fun b => Terrain5.bowlTerm b (-350) (80 : ℝ))).sum
      = 0 := by
    simp only [Terrain5.bowls, List.map_cons, List.map_nil, List.sum_cons, List.sum_nil]
    rw [bowlTerm_zero_of_far (-350) (-100) 80 120 (-350) 80 (by norm_num) (by norm_num)]
    rw [bowlTerm_zero_of_far (-50) (-280) 70 100 (-350) 80 (by norm_num) (by norm_num)]
    rw [bowlTerm_zero_of_far 50 (-320) 60 90 (-350) 80 (by norm_num) (by norm_num)]
    rw [bowlTerm_zero_of_far 280 (-350) 75 110 (-350) 80 (by norm_num) (by norm_num)]
    rw [bowlTerm_zero_of_far 380 (-280) 65 100 (-350) 80 (by norm_num) (by norm_num)]
    norm_num
  rw [hbowls]
  rw [edgeFalloff_eq_one (-350) 80 (by norm_num) (by norm_num)]
  rw [mul_one]
  congr 1
  ring

lemma continuous_peak_slice (p : Terrain5.Peak) :
    Continuous fun z => Terrain5.peakTerm p (-350) z := by
  simp only [Terrain5.peakTerm]
  fun_prop

lemma continuous_ridge_slice (x1 z1 x2 z2 h w : ℝ) :
    Continuous fun z => Terrain5.ridgeLine (-350) z x1 z1 x2 z2 h w := by
  by_cases hL : Real.sqrt ((x2 - x1) * (x2 - x1) + (z2 - z1) * (z2 - z1)) = 0
  · simp only [Terrain5.ridgeLine, if_pos hL]
    exact continuous_const
  · simp only [Terrain5.ridgeLine, if_neg hL]
    fun_prop

lemma continuous_noise_slice : Continuous fun z => Terrain5.noise (-350) z := by
  simp only [Terrain5.noise]
  fun_prop

lemma continuous_sliceSmooth : Continuous sliceSmooth := by
  have h1 : Continuous fun z =>
      (Terrain5.peaks.map (fun p => Terrain5.peakTerm p (-350) z)).sum := by
    simp only [Terrain5.peaks, List.map_cons, List.map_nil, List.sum_cons, List.sum_nil]
    exact (continuous_peak_slice _).add
      ((continuous_peak_slice _).add ((continuous_peak_slice _).add continuous_const))
  have h2 : Continuous fun z => Terrain5.calculateRidges (-350) z := by
    simp only [Terrain5.calculateRidges]
    exact ((continuous_ridge_slice _ _ _ _ _ _).add
      (continuous_ridge_slice _ _ _ _ _ _)).add (continuous_ridge_slice _ _ _ _ _ _)
  have h3 : Continuous fun z => Terrain5.noise (-350) z * 15 :=
    continuous_noise_slice.mul continuous_const
  exact (h1.add h2).add h3

lemma continuous_sliceInside : Continuous sliceInside := by
  have h1 : Continuous fun z : ℝ =>
      80 * Real.exp (-((z + 100) * (z + 100)) / (2 * 120 * 120)) * 0.6 := by
    fun_prop
  exact continuous_const.max (continuous_sliceSmooth.sub h1)

lemma sliceSmooth80_pos : 0 < sliceSmooth 80 := by
  have hd : 280 * Real.exp (-1) ≤ Terrain5.peakTerm ⟨-100, 100, 280, 200⟩ (-350) 80 := by
    rw [peakTerm_eval]
    refine mul_le_mul_of_nonneg_left ?_ (by norm_num)
    apply Real.exp_le_exp.mpr
    norm_num
  have hp2 : 0 < Terrain5.peakTerm ⟨100, -100, 313, 180⟩ (-350) 80 := by
    rw [peakTerm_eval]
    positivity
  have hp3 : 0 < Terrain5.peakTerm ⟨350, -200, 290, 220⟩ (-350) 80 := by
    rw [peakTerm_eval]
    positivity
  have hr : 0 ≤ Terrain5.calculateRidges (-350) 80 := by
    simp only [Terrain5.calculateRidges]
    have r1 := ridgeLine_nonneg (-350) 80 (-100) 100 100 (-100) 200 40 (by norm_num)
    have r2 := ridgeLine_nonneg (-350) 80 100 (-100) 350 (-200) 180 35 (by norm_num)
    have r3 := ridgeLine_nonneg (-350) 80 (-100) 100 (-300) 0 150 30 (by norm_num)
    linarith
  have hn : -(1.75 : ℝ) ≤ Terrain5.noise (-350) 80 := noise_lb _ _
  have hexp : Real.exp (-1 : ℝ) * Real.exp (1 : ℝ) = 1 := by
    rw [← Real.exp_add]
    norm_num
  have he1 : Real.exp (1 : ℝ) < 2.7182818286 := Real.exp_one_lt_d9
  have hmul : Real.exp (-1 : ℝ) * Real.exp (1 : ℝ)
      < Real.exp (-1 : ℝ) * 2.7182818286 :=
    mul_lt_mul_of_pos_left he1 (Real.exp_pos _)
  have hinv : (0.36 : ℝ) < Real.exp (-1 : ℝ) := by
    nlinarith
  simp only [sliceSmooth, Terrain5.peaks, List.map_cons, List.map_nil, List.sum_cons,
    List.sum_nil]
  nlinarith

lemma exp_nine_eighths_lt : Real.exp ((9 : ℝ) / 8) < 3.2 := by
  have h2 : (7 / 8 : ℝ) ≤ Real.exp (-(1 / 8) : ℝ) := by
    have := Real.add_one_le_exp (-(1 / 8) : ℝ)
    linarith
  have h3 : Real.exp ((1 / 8) : ℝ) ≤ 8 / 7 := by
    rw [show ((1 / 8 : ℝ)) = -(-(1 / 8)) by ring, Real.exp_neg]
    rw [show (8 / 7 : ℝ) = (7 / 8 : ℝ)⁻¹ by norm_num]
    exact inv_anti₀ (by norm_num) h2
  have h4 : Real.exp ((9 : ℝ) / 8) = Real.exp 1 * Real.exp (1 / 8 : ℝ) := by
    rw [← Real.exp_add]
    norm_num
  have he1 : Real.exp (1 : ℝ) < 2.7182818286 := Real.exp_one_lt_d9
  have hpos : (0 : ℝ) < Real.exp (1 / 8 : ℝ) := Real.exp_pos _
  calc Real.exp ((9 : ℝ) / 8) = Real.exp 1 * Real.exp (1 / 8 : ℝ) := h4
    _ ≤ 2.7182818286 * (8 / 7 : ℝ) :=
        mul_le_mul he1.le h3 hpos.le (by norm_num)
    _ < 3.2 := by norm_num

lemma max_sub_lt (A c : ℝ) (hA : 0 < A) (hc : 0 < c) : max 0 (A - c) < max 0 A := by
  rw [max_eq_right hA.le]
  rcases le_or_lt (A - c) 0 with h | h
  · rw [max_eq_left h]
    exact hA
  · rw [max_eq_right h.le]
    linarith

/-! ## Claims -/

/-- C1: for every real query point, both revisions of the height field
(`calculateHeight`, hence `getHeightAt`) return a value `≥ 0`: the final
statement of each is `Math.max(0, height)`. -/
theorem calculateHeight_nonneg (x z : ℝ) :
    0 ≤ Terrain5.calculateHeight x z ∧ 0 ≤ Terrain4.calculateHeight x z :=
  ⟨le_max_left 0 _, le_max_left 0 _⟩

/-- C3: for every cabin seeded by `createLift` (with every `Math.random()`
speed draw `≥ 0`) and every finite sequence of non-negative frame deltas,
the state reached after any number `k` of ticks has progress in `[0, 1]` and
direction `+1` or `−1` (`CabinInv`), and the next tick from there satisfies
`CabinStep`: the direction flips only when progress is clamped at 0 or 1
(progress 1 forcing direction −1, progress 0 forcing +1, never strictly
inside), and progress moves monotonically in the travel direction, so a
cabin is never reset to the start of the path. -/
theorem cabin_bounce_invariant (hf : ℝ → ℝ → ℝ) (lift : LiftRenderer.LiftConfig)
    (speedDraws : ℕ → ℝ) (hdraws : ∀ i, 0 ≤ speedDraws i)
    (c : LiftRenderer.Cabin) (hc : c ∈ (LiftRenderer.createLift hf lift speedDraws).cabins)
    (deltas : List ℝ) (hdeltas : ∀ d ∈ deltas, 0 ≤ d) (k : ℕ) :
    LiftRenderer.CabinInv (LiftRenderer.cabinAfter c.speed ⟨c.progress, c.direction⟩ deltas k) ∧
    ∀ (hk : k < deltas.length),
      LiftRenderer.CabinStep
        (LiftRenderer.cabinAfter c.speed ⟨c.progress, c.direction⟩ deltas k)
        (LiftRenderer.tickCabin c.speed
          (LiftRenderer.cabinAfter c.speed ⟨c.progress, c.direction⟩ deltas k)
          (deltas.get ⟨k, hk⟩)) := by
  have hcab := hc
  simp only [LiftRenderer.createLift, List.mem_map, List.mem_range] at hcab
  obtain ⟨i, hi, rfl⟩ := hcab
  set cc : ℕ := if lift.liftType = "gondola" then 8 else 12 with hcc
  have hccpos : 0 < (cc : ℝ) := by
    rw [hcc]; split_ifs <;> norm_num
  have hinv0 : LiftRenderer.CabinInv ⟨(i : ℝ) / (cc : ℝ), if i % 2 = 0 then 1 else -1⟩ := by
    refine ⟨div_nonneg (Nat.cast_nonneg i) (le_of_lt hccpos), ?_, ?_⟩
    · rw [div_le_one hccpos]
      exact_mod_cast le_of_lt hi
    · split_ifs <;> simp
  have hspeed : (0 : ℝ) ≤ 0.015 + speedDraws i * 0.005 := by
    have := hdraws i; nlinarith
  have hinv : LiftRenderer.CabinInv
      (LiftRenderer.cabinAfter (0.015 + speedDraws i * 0.005)
        ⟨(i : ℝ) / (cc : ℝ), if i % 2 = 0 then 1 else -1⟩ deltas k) :=
    LiftRenderer.foldl_tickCabin_inv _ _ _ hinv0
  refine ⟨hinv, fun hk => ?_⟩
  exact LiftRenderer.tickCabin_cabinStep _ _ _ hinv hspeed
    (hdeltas _ (List.get_mem deltas k hk))

/-- Witness for C3: the first cabin of a concrete triple chair, ticked twice. -/
theorem cabin_bounce_invariant_witness :
    ((⟨⟨0, (0 : ℝ) + 2, 0⟩, ⟨100, (0 : ℝ) + 2, 100⟩, ((0 : ℕ) : ℝ) / ((12 : ℕ) : ℝ),
        0.015 + 0 * 0.005, 1⟩ : LiftRenderer.Cabin) ∈
      (LiftRenderer.createLift (fun _ _ => 0)
        ⟨"Ranger", "triple", 3, ⟨0, 0⟩, ⟨100, 100⟩, none, 6⟩ (fun _ => 0)).cabins) ∧
    LiftRenderer.CabinInv
      (LiftRenderer.cabinAfter (0.015 + 0 * 0.005)
        ⟨((0 : ℕ) : ℝ) / ((12 : ℕ) : ℝ), 1⟩ [0.04, 0.03] 2) := by
  have hc : (⟨⟨0, (0 : ℝ) + 2, 0⟩, ⟨100, (0 : ℝ) + 2, 100⟩, ((0 : ℕ) : ℝ) / ((12 : ℕ) : ℝ),
      0.015 + 0 * 0.005, 1⟩ : LiftRenderer.Cabin) ∈
      (LiftRenderer.createLift (fun _ _ => 0)
        ⟨"Ranger", "triple", 3, ⟨0, 0⟩, ⟨100, 100⟩, none, 6⟩ (fun _ => 0)).cabins := by
    simp only [LiftRenderer.createLift, List.mem_map, List.mem_range]
    exact ⟨0, by decide, rfl⟩
  refine ⟨hc, ?_⟩
  exact (cabin_bounce_invariant (fun _ _ => 0)
    ⟨"Ranger", "triple", 3, ⟨0, 0⟩, ⟨100, 100⟩, none, 6⟩ (fun _ => 0)
    (fun _ => le_refl 0) _ hc [0.04, 0.03] (by norm_num) 2).1

/-- C4: for a lift with `towerCount ≥ 2` and distinct base/summit positions,
`createTowers` places exactly `towerCount - 2` interior towers; the `j`-th
placed tower (interior index `i = j + 1`) stands at the linear interpolation
of base and summit at the even parametric step `t = i / (towerCount - 1)`,
and its height is `max(15, cableHeight(t) - terrainHeight + 5)`: the minimum
tower height 15, or the interpolated cable height minus the local terrain
height at the tower's (x, z) plus the clearance 5. -/
theorem towers_spacing_and_height (hf : ℝ → ℝ → ℝ) (towerCount : ℕ)
    (basePos summitPos : V3) (htc : 2 ≤ towerCount) (hne : basePos ≠ summitPos) :
    (LiftRenderer.createTowers hf towerCount basePos summitPos).length = towerCount - 2 ∧
    ∀ (j : ℕ) (hj : j < (LiftRenderer.createTowers hf towerCount basePos summitPos).length),
      ((LiftRenderer.createTowers hf towerCount basePos summitPos).get ⟨j, hj⟩).posX
          = basePos.x + (summitPos.x - basePos.x) * (((j : ℝ) + 1) / ((towerCount : ℝ) - 1)) ∧
      ((LiftRenderer.createTowers hf towerCount basePos summitPos).get ⟨j, hj⟩).posZ
          = basePos.z + (summitPos.z - basePos.z) * (((j : ℝ) + 1) / ((towerCount : ℝ) - 1)) ∧
      ((LiftRenderer.createTowers hf towerCount basePos summitPos).get ⟨j, hj⟩).towerHeight
          = max 15 (basePos.y + (summitPos.y - basePos.y) * (((j : ℝ) + 1) / ((towerCount : ℝ) - 1))
              - hf (basePos.x + (summitPos.x - basePos.x) * (((j : ℝ) + 1) / ((towerCount : ℝ) - 1)))
                   (basePos.z + (summitPos.z - basePos.z) * (((j : ℝ) + 1) / ((towerCount : ℝ) - 1)))
              + 5) ∧
      ((LiftRenderer.createTowers hf towerCount basePos summitPos).get ⟨j, hj⟩).posY
          = hf (basePos.x + (summitPos.x - basePos.x) * (((j : ℝ) + 1) / ((towerCount : ℝ) - 1)))
               (basePos.z + (summitPos.z - basePos.z) * (((j : ℝ) + 1) / ((towerCount : ℝ) - 1)))
            + ((LiftRenderer.createTowers hf towerCount basePos summitPos).get
                ⟨j, hj⟩).towerHeight / 2 := by
  constructor
  · rw [LiftRenderer.createTowers.eq_def, List.length_map, List.length_range']
  · intro j hj
    rw [List.get_eq_getElem]
    simp only [LiftRenderer.createTowers, List.getElem_map, List.getElem_range', lerpV3]
    rw [show ((1 + 1 * j : ℕ) : ℝ) = (j : ℝ) + 1 from by push_cast; ring]
    exact ⟨rfl, rfl, rfl, rfl⟩

/-- Witness for C4: a concrete 4-tower lift over flat terrain. -/
theorem towers_spacing_and_height_witness :
    (2 ≤ 4 ∧ (⟨0, 2, 0⟩ : V3) ≠ (⟨30, 2, 30⟩ : V3)) ∧
    (LiftRenderer.createTowers (fun _ _ => 0) 4 ⟨0, 2, 0⟩ ⟨30, 2, 30⟩).length = 4 - 2 := by
  have hne : (⟨0, 2, 0⟩ : V3) ≠ (⟨30, 2, 30⟩ : V3) := by
    intro h
    have := congrArg V3.x h
    norm_num at this
  exact ⟨⟨by norm_num, hne⟩,
    (towers_spacing_and_height (fun _ _ => 0) 4 ⟨0, 2, 0⟩ ⟨30, 2, 30⟩ (by norm_num) hne).1⟩

/-- C9 counterexample: a lift whose base and summit coincide is built
without any error being signalled: `createLift` (which has no validity check
and whose codomain has no error case, mirroring the source) produces the
full complement of towers and cabins for a coincident 5-tower quad lift. -/
theorem coincident_lift_built_anyway :
    (LiftRenderer.createLift (fun _ _ => 7)
        ⟨"Broken", "quad", 4, ⟨0, 0⟩, ⟨0, 0⟩, none, 5⟩ (fun _ => 0)).towers.length = 3 ∧
    (LiftRenderer.createLift (fun _ _ => 7)
        ⟨"Broken", "quad", 4, ⟨0, 0⟩, ⟨0, 0⟩, none, 5⟩ (fun _ => 0)).cabins.length = 12 := by
  constructor
  · simp [LiftRenderer.createLift, LiftRenderer.createTowers]
  · simp [LiftRenderer.createLift]

/-- C9 amended: lift construction performs no coincidence check; for a lift
with `base = summit` it builds the usual `towerCount - 2` towers, all placed
at the coincident point, each of the minimum height
`max(15, (h+2) - h + 5) = 15`, and reports no error. -/
theorem coincident_lift_towers (hf : ℝ → ℝ → ℝ) (lift : LiftRenderer.LiftConfig)
    (speedDraws : ℕ → ℝ) (h : lift.base = lift.summit) :
    (LiftRenderer.createLift hf lift speedDraws).towers.length = lift.towerCount - 2 ∧
    ∀ t ∈ (LiftRenderer.createLift hf lift speedDraws).towers,
      t.posX = lift.base.x ∧ t.posZ = lift.base.z ∧ t.towerHeight = 15 := by
  have hx : lift.base.x = lift.summit.x := congrArg Pt2.x h
  have hz : lift.base.z = lift.summit.z := congrArg Pt2.z h
  constructor
  · simp [LiftRenderer.createLift, LiftRenderer.createTowers]
  · intro t ht
    simp only [LiftRenderer.createLift, LiftRenderer.createTowers, lerpV3,
      List.mem_map] at ht
    obtain ⟨i, _, rfl⟩ := ht
    dsimp only
    rw [← hx, ← hz]
    refine ⟨by ring, by ring, ?_⟩
    have harg : lift.base.x + (lift.base.x - lift.base.x) * ((i : ℝ) / ((lift.towerCount : ℝ) - 1))
        = lift.base.x := by ring
    have harg2 : lift.base.z + (lift.base.z - lift.base.z) * ((i : ℝ) / ((lift.towerCount : ℝ) - 1))
        = lift.base.z := by ring
    rw [harg, harg2]
    have h7 : hf lift.base.x lift.base.z + 2
        + (hf lift.base.x lift.base.z + 2 - (hf lift.base.x lift.base.z + 2))
          * ((i : ℝ) / ((lift.towerCount : ℝ) - 1))
        - hf lift.base.x lift.base.z + 5 = 7 := by ring
    rw [h7]
    exact max_eq_left (by norm_num)

/-- Witness for C9: a concrete coincident 6-tower lift over terrain height 3. -/
theorem coincident_lift_towers_witness :
    ((⟨5, 5⟩ : Pt2) = (⟨5, 5⟩ : Pt2)) ∧
    (LiftRenderer.createLift (fun _ _ => 3)
        ⟨"AtoA", "double", 2, ⟨5, 5⟩, ⟨5, 5⟩, none, 6⟩ (fun _ => 0)).towers.length = 6 - 2 :=
  ⟨rfl, (coincident_lift_towers (fun _ _ => 3)
    ⟨"AtoA", "double", 2, ⟨5, 5⟩, ⟨5, 5⟩, none, 6⟩ (fun _ => 0) rfl).1⟩

/-- C7: in both revisions of `getRunWidth`, rendered run width is monotone in
difficulty with easier runs at least as wide:
`width(green) ≥ width(blue) ≥ width(black) ≥ width(double)`. -/
theorem runWidth_difficulty_monotone :
    (RunRenderer.getRunWidth "blue" ≤ RunRenderer.getRunWidth "green" ∧
     RunRenderer.getRunWidth "black" ≤ RunRenderer.getRunWidth "blue" ∧
     RunRenderer.getRunWidth "double" ≤ RunRenderer.getRunWidth "black") ∧
    (RunRendererTube.getRunWidth "blue" ≤ RunRendererTube.getRunWidth "green" ∧
     RunRendererTube.getRunWidth "black" ≤ RunRendererTube.getRunWidth "blue" ∧
     RunRendererTube.getRunWidth "double" ≤ RunRendererTube.getRunWidth "black") := by
  refine ⟨⟨?_, ?_, ?_⟩, ?_, ?_, ?_⟩ <;>
    · simp only [RunRenderer.getRunWidth, RunRendererTube.getRunWidth, String.reduceEq,
        reduceIte]
      norm_num

/-- C8 counterexample: a run with a single control point does not raise any
fail-fast build error: `createRunMesh` returns `null` (`none`) and
`generate` silently drops the run, producing exactly the meshes of the
remaining table — the configuration defect is masked, not loudly surfaced. -/
theorem short_run_silently_skipped :
    RunRenderer.createRunMesh (fun _ _ => 0) (fun _ _ => ⟨0, 0, 0⟩) (fun _ _ => ⟨0, 0, 0⟩)
        ⟨"Oops", "green", [⟨0, 0⟩]⟩ = none ∧
    RunRenderer.generate (fun _ _ => 0) (fun _ _ => ⟨0, 0, 0⟩) (fun _ _ => ⟨0, 0, 0⟩)
        [⟨"Oops", "green", [⟨0, 0⟩]⟩, ⟨"Schoolmarm", "green", [⟨0, 0⟩, ⟨10, 10⟩, ⟨20, 30⟩]⟩]
      = RunRenderer.generate (fun _ _ => 0) (fun _ _ => ⟨0, 0, 0⟩) (fun _ _ => ⟨0, 0, 0⟩)
        [⟨"Schoolmarm", "green", [⟨0, 0⟩, ⟨10, 10⟩, ⟨20, 30⟩]⟩] := by
  constructor
  · simp [RunRenderer.createRunMesh]
  · simp [RunRenderer.generate, List.filterMap_cons, RunRenderer.createRunMesh]

/-- C8 amended: for every run with fewer than 2 control points,
`createRunMesh` produces no geometry — it returns `null` (`none`) — and the
renderer's `generate` loop skips the run and continues with the rest of the
table; no fatal error is signalled (the earlier revision merely logs a
console warning). -/
theorem short_run_returns_none (hf : ℝ → ℝ → ℝ)
    (curvePoint curveTangentAt : List V3 → ℝ → V3) (run : RunRenderer.Run)
    (rest : List RunRenderer.Run) (h : run.points.length < 2) :
    RunRenderer.createRunMesh hf curvePoint curveTangentAt run = none ∧
    RunRenderer.generate hf curvePoint curveTangentAt (run :: rest)
      = RunRenderer.generate hf curvePoint curveTangentAt rest := by
  have h1 : RunRenderer.createRunMesh hf curvePoint curveTangentAt run = none := by
    simp [RunRenderer.createRunMesh, h]
  exact ⟨h1, by simp [RunRenderer.generate, List.filterMap_cons, h1]⟩

/-- Witness for C8: the single-point run from the counterexample family. -/
theorem short_run_returns_none_witness :
    ([(⟨0, 0⟩ : Pt2)].length < 2) ∧
    RunRenderer.createRunMesh (fun _ _ => 1) (fun _ _ => ⟨0, 0, 0⟩) (fun _ _ => ⟨0, 0, 0⟩)
        ⟨"Short", "blue", [⟨0, 0⟩]⟩ = none :=
  ⟨by norm_num,
   (short_run_returns_none (fun _ _ => 1) (fun _ _ => ⟨0, 0, 0⟩) (fun _ _ => ⟨0, 0, 0⟩)
      ⟨"Short", "blue", [⟨0, 0⟩]⟩ [] (by norm_num)).1⟩

/-- C6: on flat terrain of height 5, a 3-control-point run rendered at
width 10 (a `"double"` run) along a straight horizontal path — the
centripetal Catmull-Rom curve through 3 collinear lifted control points is
that straight path, which is what the tangent hypothesis `htan` records —
produces a ribbon in which every vertex sits at `y = 5 + 0.5 = 5.5`
(terrain height plus the fixed clearance) and, in every sample row, the
right-edge vertex minus the left-edge vertex is a vector of length exactly
10 that is perpendicular to the path tangent. -/
theorem ribbon_width_flat_terrain
    (hf : ℝ → ℝ → ℝ) (hhf : ∀ x z, hf x z = 5)
    (curvePoint curveTangentAt : List V3 → ℝ → V3) (run : RunRenderer.Run)
    (hpts : run.points.length = 3)
    (hwidth : RunRenderer.getRunWidth run.difficulty = 10)
    (htan : ∀ t : ℝ,
      (curveTangentAt (run.points.map fun p => (⟨p.x, hf p.x p.z + 0.3, p.z⟩ : V3)) t).y = 0 ∧
      ¬((curveTangentAt (run.points.map fun p => (⟨p.x, hf p.x p.z + 0.3, p.z⟩ : V3)) t).x = 0 ∧
        (curveTangentAt (run.points.map fun p => (⟨p.x, hf p.x p.z + 0.3, p.z⟩ : V3)) t).z = 0)) :
    (RunRenderer.createRunMesh hf curvePoint curveTangentAt run).isSome = true ∧
    ∀ m, RunRenderer.createRunMesh hf curvePoint curveTangentAt run = some m →
      (∀ v ∈ m.geometry.vertices, v.y = 5.5) ∧
      ∀ i : ℕ, i ≤ 50 →
        normV3 ⟨(RunRenderer.ribbonVertexPair hf (curvePoint m.points3D)
                    (curveTangentAt m.points3D) 10 50 i).2.x
                  - (RunRenderer.ribbonVertexPair hf (curvePoint m.points3D)
                      (curveTangentAt m.points3D) 10 50 i).1.x,
                (RunRenderer.ribbonVertexPair hf (curvePoint m.points3D)
                    (curveTangentAt m.points3D) 10 50 i).2.y
                  - (RunRenderer.ribbonVertexPair hf (curvePoint m.points3D)
                      (curveTangentAt m.points3D) 10 50 i).1.y,
                (RunRenderer.ribbonVertexPair hf (curvePoint m.points3D)
                    (curveTangentAt m.points3D) 10 50 i).2.z
                  - (RunRenderer.ribbonVertexPair hf (curvePoint m.points3D)
                      (curveTangentAt m.points3D) 10 50 i).1.z⟩ = 10 ∧
        ((RunRenderer.ribbonVertexPair hf (curvePoint m.points3D)
              (curveTangentAt m.points3D) 10 50 i).2.x
            - (RunRenderer.ribbonVertexPair hf (curvePoint m.points3D)
                (curveTangentAt m.points3D) 10 50 i).1.x)
          * (curveTangentAt m.points3D ((i : ℝ) / (50 : ℕ))).x
        + ((RunRenderer.ribbonVertexPair hf (curvePoint m.points3D)
              (curveTangentAt m.points3D) 10 50 i).2.y
            - (RunRenderer.ribbonVertexPair hf (curvePoint m.points3D)
                (curveTangentAt m.points3D) 10 50 i).1.y)
          * (curveTangentAt m.points3D ((i : ℝ) / (50 : ℕ))).y
        + ((RunRenderer.ribbonVertexPair hf (curvePoint m.points3D)
              (curveTangentAt m.points3D) 10 50 i).2.z
            - (RunRenderer.ribbonVertexPair hf (curvePoint m.points3D)
                (curveTangentAt m.points3D) 10 50 i).1.z)
          * (curveTangentAt m.points3D ((i : ℝ) / (50 : ℕ))).z = 0 := by
  have hcond : ¬(run.points.length < 2) := by rw [hpts]; norm_num
  have hcm : RunRenderer.createRunMesh hf curvePoint curveTangentAt run
      = some ⟨run.points.map fun p => (⟨p.x, hf p.x p.z + 0.3, p.z⟩ : V3),
              RunRenderer.getRunWidth run.difficulty,
              RunRenderer.createRibbonGeometry hf
                (curvePoint (run.points.map fun p => (⟨p.x, hf p.x p.z + 0.3, p.z⟩ : V3)))
                (curveTangentAt (run.points.map fun p => (⟨p.x, hf p.x p.z + 0.3, p.z⟩ : V3)))
                (RunRenderer.getRunWidth run.difficulty) 50⟩ := by
    rw [RunRenderer.createRunMesh.eq_def, if_neg hcond]
  refine ⟨by rw [hcm]; rfl, ?_⟩
  intro m hm
  rw [hcm] at hm
  obtain rfl := (Option.some.injEq _ _).mp hm
  constructor
  · intro v hv
    simp only [RunRenderer.createRibbonGeometry, List.mem_flatMap, List.mem_range,
      List.mem_cons, List.not_mem_nil, or_false] at hv
    obtain ⟨j, _, hv⟩ := hv
    rcases hv with rfl | rfl
    · simp only [RunRenderer.ribbonVertexPair]
      rw [hhf]
      norm_num
    · simp only [RunRenderer.ribbonVertexPair]
      rw [hhf]
      norm_num
  · intro i _
    exact ribbon_row_aux hf hhf _ _ 50 i (htan _).1 (htan _).2

/-- Witness for C6: a straight horizontal double-diamond run on flat
terrain of height 5, with the straight-line curve functions. -/
theorem ribbon_width_flat_terrain_witness :
    RunRenderer.getRunWidth "double" = 10 ∧
    (RunRenderer.createRunMesh (fun _ _ => 5) (fun _ t => ⟨t, 5.3, 0⟩) (fun _ _ => ⟨1, 0, 0⟩)
        ⟨"Straight", "double", [⟨0, 0⟩, ⟨1, 0⟩, ⟨2, 0⟩]⟩).isSome = true := by
  refine ⟨by simp [RunRenderer.getRunWidth], ?_⟩
  exact (ribbon_width_flat_terrain (fun _ _ => 5) (fun _ _ => rfl)
    (fun _ t => ⟨t, 5.3, 0⟩) (fun _ _ => ⟨1, 0, 0⟩)
    ⟨"Straight", "double", [⟨0, 0⟩, ⟨1, 0⟩, ⟨2, 0⟩]⟩ rfl
    (by simp [RunRenderer.getRunWidth])
    (fun t => ⟨rfl, by norm_num⟩)).1

/-- C5: every position emitted by `generateTreePositions` lies outside every
configured exclusion corridor box, for every random oracle (jitter and
coin draws), every grid extent, and every height field: candidates inside a
corridor are rejected by the `isInRunCorridor` test before being pushed. -/
theorem trees_avoid_corridors (hf : ℝ → ℝ → ℝ) (width depth : ℝ) (nx nz : ℕ)
    (cellRnd : ℕ → ℕ → ℝ) (treeRnd : ℕ → ℕ → ℕ → ℕ → ℝ) :
    ∀ p ∈ TreeGenerator.generateTreePositions hf width depth nx nz cellRnd treeRnd,
      ∀ c ∈ TreeGenerator.getRunCorridors,
        ¬(c.cx - c.width / 2 < p.x ∧ p.x < c.cx + c.width / 2 ∧
          c.cz - c.depth / 2 < p.z ∧ p.z < c.cz + c.depth / 2) := by
  intro p hp c hc
  simp only [TreeGenerator.generateTreePositions, List.mem_flatMap, List.mem_range] at hp
  obtain ⟨xi, _, zi, _, t, _, hp⟩ := hp
  have hsome := Option.mem_toList.mp hp
  rw [Option.mem_def] at hsome
  obtain ⟨hfalse, hx, hz⟩ := TreeGenerator.treeCandidate_some _ _ _ _ _ _ _ hsome
  have hall := List.any_eq_false.mp hfalse c hc
  rw [TreeGenerator.inCorridorB] at hall
  simp only [decide_eq_true_eq] at hall
  rw [hx, hz]
  exact hall

/-- Witness for C5: with a constant height field of 100, constant oracle
0.25 and a 1x1 grid over a 100x100 extent, the generator emits the point
(-36, 100, -36), which the theorem places outside every corridor. -/
theorem trees_avoid_corridors_witness :
    ((⟨-36, 100, -36⟩ : V3) ∈ TreeGenerator.generateTreePositions (fun _ _ => 100) 100 100 1 1
      (fun _ _ => 0.25) (fun _ _ _ _ => 0.25)) ∧
    ∀ c ∈ TreeGenerator.getRunCorridors,
      ¬(c.cx - c.width / 2 < (-36 : ℝ) ∧ (-36 : ℝ) < c.cx + c.width / 2 ∧
        c.cz - c.depth / 2 < (-36 : ℝ) ∧ (-36 : ℝ) < c.cz + c.depth / 2) := by
  have hmem : (⟨-36, 100, -36⟩ : V3) ∈ TreeGenerator.generateTreePositions (fun _ _ => 100)
      100 100 1 1 (fun _ _ => 0.25) (fun _ _ _ _ => 0.25) := by
    simp only [TreeGenerator.generateTreePositions, List.mem_flatMap, List.mem_range]
    refine ⟨0, by norm_num, 0, by norm_num, 0, ?_, ?_⟩
    · have : (⌊(0.25 : ℝ) * 2⌋).toNat = 0 := by norm_num
      rw [this]
      norm_num
    · have hcorr : TreeGenerator.isInRunCorridor (-36) (-36) TreeGenerator.getRunCorridors
          = false := by
        refine List.any_eq_false.mpr ?_
        intro c hc
        fin_cases hc <;>
          · simp only [TreeGenerator.inCorridorB, decide_eq_true_eq]
            norm_num
      have hslope : TreeGenerator.estimateSlope (fun _ _ => 100) (-36) (-36) = 0 := by
        simp [TreeGenerator.estimateSlope]
      have hcand : TreeGenerator.treeCandidate (fun _ _ => 100) TreeGenerator.getRunCorridors
          (-(100 / 2) + 18 + 18 * ((0 : ℕ) : ℝ) + ((0.25 : ℝ) - 0.5) * 8 * 2)
          (-(100 / 2) + 18 + 18 * ((0 : ℕ) : ℝ) + ((0.25 : ℝ) - 0.5) * 8 * 2)
          0.25 0.25 = some ⟨-36, 100, -36⟩ := by
        have hxy : -(100 / 2 : ℝ) + 18 + 18 * ((0 : ℕ) : ℝ) + ((0.25 : ℝ) - 0.5) * 8 * 2
            = -36 := by norm_num
        rw [hxy]
        simp only [TreeGenerator.treeCandidate]
        rw [if_neg (by norm_num), if_neg (by rw [hcorr]; simp),
          if_neg (by rw [hslope]; norm_num), if_neg (by rw [hslope]; norm_num),
          if_neg (by norm_num)]
      rw [hcand]
      simp
  refine ⟨hmem, ?_⟩
  intro c hc
  exact trees_avoid_corridors (fun _ _ => 100) 100 100 1 1
    (fun _ _ => 0.25) (fun _ _ _ _ => 0.25) _ hmem c hc

/-- C10: for every mesh vertex `i`, the value `generateHeightmap` stores in
`heightmap[i]` and writes into the vertex `y` equals
`getHeightAt(x_i, z_i)` at that vertex's horizontal coordinates: both are
the same pure `calculateHeight`, so mesh surface and off-grid queries agree
exactly at every vertex. -/
theorem heightmap_matches_getHeightAt (positions : List V3) (i : ℕ)
    (h1 : i < (Terrain5.generateHeightmap positions).1.length)
    (h2 : i < (Terrain5.generateHeightmap positions).2.length)
    (hp : i < positions.length) :
    (Terrain5.generateHeightmap positions).1.get ⟨i, h1⟩
        = Terrain5.getHeightAt (positions.get ⟨i, hp⟩).x (positions.get ⟨i, hp⟩).z ∧
    ((Terrain5.generateHeightmap positions).2.get ⟨i, h2⟩).y
        = Terrain5.getHeightAt (positions.get ⟨i, hp⟩).x (positions.get ⟨i, hp⟩).z ∧
    ((Terrain5.generateHeightmap positions).2.get ⟨i, h2⟩).x = (positions.get ⟨i, hp⟩).x ∧
    ((Terrain5.generateHeightmap positions).2.get ⟨i, h2⟩).z = (positions.get ⟨i, hp⟩).z := by
  simp [Terrain5.generateHeightmap, Terrain5.getHeightAt]

/-- Witness for C10: the single vertex (3, 7, 4). -/
theorem heightmap_matches_getHeightAt_witness :
    (0 < (Terrain5.generateHeightmap [(⟨3, 7, 4⟩ : V3)]).1.length ∧
     0 < (Terrain5.generateHeightmap [(⟨3, 7, 4⟩ : V3)]).2.length ∧
     0 < ([(⟨3, 7, 4⟩ : V3)] : List V3).length) ∧
    (Terrain5.generateHeightmap [(⟨3, 7, 4⟩ : V3)]).1.get
        ⟨0, by simp [Terrain5.generateHeightmap]⟩ = Terrain5.getHeightAt 3 4 := by
  refine ⟨⟨by simp [Terrain5.generateHeightmap], by simp [Terrain5.generateHeightmap],
    by simp⟩, ?_⟩
  exact (heightmap_matches_getHeightAt [(⟨3, 7, 4⟩ : V3)] 0
    (by simp [Terrain5.generateHeightmap]) (by simp [Terrain5.generateHeightmap])
    (by simp)).1

/-- C2 counterexample: the height field is NOT continuous everywhere.
Along the line `x = -350` it is discontinuous at `z = 80`, the point where
the independence bowl's hard cutoff circle `dist < radius * 1.5` is
crossed: just inside the circle the bowl still subtracts
`80 * exp(-9/8) * 0.6 ≈ 15.6` units, so the contribution at the cutoff
boundary is far from 0 and the left limit differs from the value. -/
theorem calculateHeight_not_continuous :
    ¬ ContinuousAt (fun z => Terrain5.calculateHeight (-350) z) 80 := by
  intro hcont
  have h1 : Filter.Tendsto (fun z => Terrain5.calculateHeight (-350) z)
      (nhdsWithin 80 (Set.Iio 80)) (nhds (Terrain5.calculateHeight (-350) 80)) :=
    hcont.continuousWithinAt
  have h2 : Filter.Tendsto sliceInside (nhdsWithin 80 (Set.Iio 80))
      (nhds (sliceInside 80)) :=
    continuous_sliceInside.continuousAt.continuousWithinAt
  have hev : (fun z => Terrain5.calculateHeight (-350) z)
      =ᶠ[nhdsWithin 80 (Set.Iio 80)] sliceInside := by
    filter_upwards [Ioo_mem_nhdsWithin_Iio
      (show (80 : ℝ) ∈ Set.Ioc (79 : ℝ) 80 from ⟨by norm_num, le_refl _⟩)] with z hz
    exact calcHeight_slice_inside z hz.1 hz.2
  have h3 : Filter.Tendsto (fun z => Terrain5.calculateHeight (-350) z)
      (nhdsWithin 80 (Set.Iio 80)) (nhds (sliceInside 80)) := h2.congr' hev.symm
  have heq : Terrain5.calculateHeight (-350) 80 = sliceInside 80 :=
    tendsto_nhds_unique h1 h3
  have hlt : sliceInside 80 < Terrain5.calculateHeight (-350) 80 := by
    rw [calcHeight_slice_at80]
    simp only [sliceInside]
    exact max_sub_lt _ _ sliceSmooth80_pos (by positivity)
  exact (ne_of_lt hlt) heq.symm

/-- C2 amended: the bowl falloffs are smooth strictly inside the cutoff,
but each bowl is truncated by the hard test `dist < radius * 1.5` at a
point where its contribution is `depth * 0.6 * exp(-9/8) ≈ 0.195 * depth`,
not ≈ 0.  Concretely, for the independence bowl (depth 80, radius 120)
along `x = -350`: everywhere just inside the cutoff (`79 < z < 80`) the
subtracted contribution exceeds 15 height units, while on the cutoff
circle (`z = 80`) it is exactly 0 — a jump discontinuity of the height
field across the circle. -/
theorem bowl_cutoff_jump :
    (∀ z : ℝ, 79 < z → z < 80 →
      15 < Terrain5.bowlTerm ⟨-350, -100, 80, 120⟩ (-350) z) ∧
    Terrain5.bowlTerm ⟨-350, -100, 80, 120⟩ (-350) 80 = 0 := by
  constructor
  · intro z h79 h80
    rw [bowlTerm_eval (-350) (-100) 80 120 (-350) z (z + 100) (by linarith) (by ring)
      (by nlinarith)]
    have hexp : Real.exp (-(9 / 8) : ℝ)
        ≤ Real.exp (-((z + 100) * (z + 100)) / (2 * 120 * 120)) := by
      apply Real.exp_le_exp.mpr
      rw [neg_div, neg_le_neg_iff, div_le_iff₀ (by norm_num)]
      nlinarith
    have hprod : Real.exp (-(9 / 8) : ℝ) * Real.exp ((9 : ℝ) / 8) = 1 := by
      rw [← Real.exp_add]
      norm_num
    have hmul : Real.exp (-(9 / 8) : ℝ) * Real.exp ((9 : ℝ) / 8)
        < Real.exp (-(9 / 8) : ℝ) * 3.2 :=
      mul_lt_mul_of_pos_left exp_nine_eighths_lt (Real.exp_pos _)
    have hlb : (0.3125 : ℝ) < Real.exp (-(9 / 8) : ℝ) := by linarith
    nlinarith
  · exact bowlTerm_zero_of_far (-350) (-100) 80 120 (-350) 80 (by norm_num) (by norm_num)

/-- Witness for C2: the jump at the concrete interior point z = 79.5. -/
theorem bowl_cutoff_jump_witness :
    ((79 : ℝ) < 79.5 ∧ (79.5 : ℝ) < 80) ∧
    15 < Terrain5.bowlTerm ⟨-350, -100, 80, 120⟩ (-350) 79.5 ∧
    Terrain5.bowlTerm ⟨-350, -100, 80, 120⟩ (-350) 80 = 0 :=
  ⟨⟨by norm_num, by norm_num⟩,
   bowl_cutoff_jump.1 79.5 (by norm_num) (by norm_num), bowl_cutoff_jump.2⟩

end Keystone
